import Mathlib

/-!
Shallow embedding of the terraform-ai-agent backend
(`backend/routes/terraform.js` and `backend/middleware/security.js`)
and proofs about its staged plan-then-apply action lifecycle.

Machine times (`Date.now()`) are modelled as `Nat` milliseconds.
JavaScript strings are modelled as Lean `String` (lists of code points).
Provider calls (STS `assumeRole`, `getCallerIdentity`, the S3 SDK calls)
are modelled as oracles supplied in an environment record, so that a
handler is a pure function of its request, the shared ledger and the
oracle outcomes.
-/

namespace TfAgent

/-- Truthiness of an optional string field of a JSON request body, exactly as
JavaScript sees it after destructuring: `undefined` (here `none`) and the
empty string are falsy, every other string is truthy. -/
def truthy : Option String → Bool
  | none => false
  | some s => !s.isEmpty

/-- Whether the needle occurs at the head of the haystack (code-point lists). -/
def headMatches : List Char → List Char → Bool
  | _, [] => true
  | [], _ :: _ => false
  | c :: cs, d :: ds => c == d && headMatches cs ds

/-- Substring containment on code-point lists; `containsSeq hay needle` is
JavaScript `hay.includes(needle)`. -/
def containsSeq : List Char → List Char → Bool
  | [], needle => needle.isEmpty
  | c :: cs, needle => headMatches (c :: cs) needle || containsSeq cs needle

/-- JavaScript `s.includes(sub)`. -/
def jsIncludes (s sub : String) : Bool :=
  containsSeq s.data sub.data

/-- ASCII lowering of one character. -/
def charLower (c : Char) : Char :=
  if 'A' ≤ c && c ≤ 'Z' then Char.ofNat (c.toNat + 32) else c

/-- JavaScript `s.toLowerCase()`, restricted to its ASCII behaviour (all the
keyword tests of the source compare against ASCII keywords). -/
def jsToLower (s : String) : String :=
  ⟨s.data.map charLower⟩

/-- Decimal digits of `n`, least significant first, rendered as characters.
The first argument is structural fuel (any value at least `n` is enough). -/
def natToStringRev : Nat → Nat → List Char
  | _, 0 => []
  | 0, _ + 1 => []
  | fuel + 1, n + 1 => Nat.digitChar ((n + 1) % 10) :: natToStringRev fuel ((n + 1) / 10)

/-- Decimal rendering of a natural number, as JavaScript string interpolation
renders `Date.now()`. -/
def natToString (n : Nat) : String :=
  if n = 0 then "0" else ⟨(natToStringRev n n).reverse⟩

/-- The action identifier generated at staging time in the chat route:
JavaScript `` `action_${Date.now()}` `` (terraform.js line 114). -/
def genActionId (now : Nat) : String :=
  "action_" ++ natToString now

/-- Numeric value of a decimal digit character. -/
def charToDigitVal (c : Char) : Nat :=
  c.toNat - 48

/-- Recover the embedded creation-time component from an action identifier. -/
def extractTime (s : String) : Option Nat :=
  if s.data.take 7 = "action_".data then
    some (Nat.ofDigits 10 ((s.data.drop 7).reverse.map charToDigitVal))
  else none

/-- Character class `[\w+=,.@-]` of the role-name part of the ARN regex in
`validateAwsCredentials` (security.js line 39). -/
def isRoleNameChar (c : Char) : Bool :=
  c.isAlphanum || c == '_' || c == '+' || c == '=' || c == ',' || c == '.' || c == '@' || c == '-'

/-- The regex `^arn:aws:iam::\d{12}:role\/[\w+=,.@-]+$` from
`validateAwsCredentials` (security.js line 39), decomposed positionally:
a fixed head, exactly 12 decimal digits, a fixed `:role/` separator, and a
nonempty role name over the allowed character class. -/
def matchesRoleArn (s : String) : Bool :=
  let cs := s.data
  let afterIam := cs.drop 13
  let account := afterIam.take 12
  let afterAccount := afterIam.drop 12
  let roleName := afterAccount.drop 6
  (cs.take 13 == "arn:aws:iam::".data)
    && account.length == 12 && account.all Char.isDigit
    && (afterAccount.take 6 == ":role/".data)
    && !roleName.isEmpty && roleName.all isRoleNameChar

/-- Character class `[a-f0-9]` of the external-id regex (security.js line 50). -/
def isLowerHexChar (c : Char) : Bool :=
  ('0' ≤ c && c ≤ '9') || ('a' ≤ c && c ≤ 'f')

/-- The regex `^[a-f0-9]{64}$` from `validateAwsCredentials`
(security.js line 50). -/
def isHex64 (s : String) : Bool :=
  s.data.length == 64 && s.data.all isLowerHexChar

/-- A JSON request body after destructuring, covering the fields read by the
three routes and the middleware. A field absent from the body is `none`. -/
structure RequestBody where
  message : Option String
  actionId : Option String
  roleArn : Option String
  externalId : Option String
deriving DecidableEq, Repr

/-- Temporary credentials returned by STS `assumeRole`
(terraform.js lines 221-226); `expiration` is a millisecond timestamp. -/
structure Credentials where
  accessKeyId : String
  secretAccessKey : String
  sessionToken : String
  expiration : Nat
deriving DecidableEq, Repr

/-- An AWS SDK error as observed in a `catch` block: a `code` and a `message`. -/
structure JsError where
  code : String
  message : String
deriving DecidableEq, Repr

/-- A value stored in the `pendingActions` map (terraform.js lines 115-122).
`resourceConfig` models the `{ bucketName }` object: `some bucketName` for an
s3-bucket plan, `none` for the empty object `{}` of the default plan. -/
structure PendingAction where
  message : String
  roleArn : String
  externalId : String
  resourceType : String
  resourceConfig : Option String
  timestamp : Nat
deriving DecidableEq, Repr

/-- The `pendingActions` JavaScript `Map`, modelled as an association list in
insertion order. -/
abbrev Ledger := List (String × PendingAction)

/-- JavaScript `pendingActions.get(actionId)`. -/
def mapGet (m : Ledger) (k : String) : Option PendingAction :=
  (m.find? (fun p => p.1 == k)).map (fun p => p.2)

/-- JavaScript `pendingActions.set(actionId, v)`: replace the entry in place
if the key is present, otherwise append (insertion order is preserved). -/
def mapSet : Ledger → String → PendingAction → Ledger
  | [], k, v => [(k, v)]
  | (k', v') :: rest, k, v =>
    if k' == k then (k, v) :: rest else (k', v') :: mapSet rest k v

/-- JavaScript `pendingActions.delete(actionId)`. -/
def mapDelete (m : Ledger) (k : String) : Ledger :=
  m.filter (fun p => p.1 != k)

/-- The `cleanupOldActions` sweep (terraform.js lines 449-456): delete every
entry whose `timestamp` is below `now - 600000`. Natural-number truncated
subtraction agrees with the JavaScript comparison because timestamps are
nonnegative, so `ts < now - 600000` is false in both readings when
`now ≤ 600000`. -/
def cleanupOldActions (now : Nat) (m : Ledger) : Ledger :=
  m.filter (fun p => !(p.2.timestamp < now - 600000))

/-- The fixed verb set of the chat route's change-intent classifier
(terraform.js line 80). -/
def creationKeywords : List String :=
  ["create", "deploy", "setup", "build", "launch", "make", "provision"]

/-- The classifier on the lower-cased message (terraform.js lines 79-82). -/
def isCreationRequest (lowerMessage : String) : Bool :=
  creationKeywords.any (fun w => jsIncludes lowerMessage w)

/-- The ordered knowledge base of `generateAnswer`
(terraform.js lines 233-240), in object insertion order. -/
def knowledgeBase : List (String × String) :=
  [("s3", "Amazon S3 (Simple Storage Service) is object storage for any amount of data. Use it for backups, static websites, data lakes, and application data. It offers high durability (99.999999999%), multiple storage classes, and lifecycle policies to optimize costs."),
   ("ec2", "Amazon EC2 (Elastic Compute Cloud) provides resizable virtual servers. Choose from various instance types optimized for compute, memory, storage, or GPU workloads. Pay only for what you use with on-demand pricing, or save up to 75% with Reserved Instances."),
   ("lambda", "AWS Lambda runs code without servers. You pay only for compute time (per millisecond). Perfect for event-driven applications, APIs, data processing, and scheduled tasks. Supports Python, Node.js, Java, Go, and more."),
   ("vpc", "Amazon VPC (Virtual Private Cloud) lets you create isolated networks in AWS. Control IP ranges, subnets, route tables, and network gateways. Essential for secure multi-tier applications."),
   ("pricing", "AWS pricing is pay-as-you-go. Major factors: instance type, data transfer, storage, and region. Use Reserved Instances (up to 75% savings) or Spot Instances (up to 90% savings) for predictable workloads. Enable AWS Cost Explorer and Budget alerts."),
   ("terraform", "Terraform is Infrastructure as Code (IaC). Write declarative config to define infrastructure, version control it like code, and safely plan changes before applying. Supports 100+ cloud providers.")]

/-- The informational answer path, `generateAnswer`
(terraform.js lines 232-250): first keyword contained in the lower-cased
question wins. -/
def generateAnswer (question : String) : String :=
  let lowerQuestion := jsToLower question
  match knowledgeBase.find? (fun kv => jsIncludes lowerQuestion kv.1) with
  | some kv => kv.2
  | none => "I can help with AWS and Terraform! Ask about S3, EC2, Lambda, VPC, pricing, or tell me what infrastructure to create."

/-- The result record of `generateTerraformPlan` (terraform.js lines 252-348). -/
structure PlanResult where
  resourceType : String
  resourceConfig : Option String
  summary : String
  terraformCode : String
  plan : String
  resources : List String
  estimatedCost : String
  warnings : List String
deriving DecidableEq, Repr

/-- The rendered Terraform artifact of the s3-bucket rule
(terraform.js lines 262-310); `isoNow` models `new Date().toISOString()`. -/
def s3TerraformCode (bucketName isoNow : String) : String :=
  "terraform \x7b\n  required_providers \x7b\n    aws = \x7b\n      source  = \"hashicorp/aws\"\n      version = \"~> 5.0\"\n    \x7d\n  \x7d\n\x7d\n\nprovider \"aws\" \x7b\n  region = \"us-east-1\"\n\x7d\n\nresource \"aws_s3_bucket\" \"main\" \x7b\n  bucket = \""
    ++ bucketName
    ++ "\"\n\n  tags = \x7b\n    Name        = \"Terraform AI Bucket\"\n    Environment = \"Development\"\n    ManagedBy   = \"TerraformAI\"\n    CreatedAt   = \""
    ++ isoNow
    ++ "\"\n  \x7d\n\x7d\n\nresource \"aws_s3_bucket_versioning\" \"main\" \x7b\n  bucket = aws_s3_bucket.main.id\n\n  versioning_configuration \x7b\n    status = \"Enabled\"\n  \x7d\n\x7d\n\nresource \"aws_s3_bucket_server_side_encryption_configuration\" \"main\" \x7b\n  bucket = aws_s3_bucket.main.id\n\n  rule \x7b\n    apply_server_side_encryption_by_default \x7b\n      sse_algorithm = \"AES256\"\n    \x7d\n  \x7d\n\x7d\n\noutput \"bucket_name\" \x7b\n  value = aws_s3_bucket.main.id\n\x7d\n\noutput \"bucket_arn\" \x7b\n  value = aws_s3_bucket.main.arn\n\x7d"

/-- The human-readable plan text of the s3-bucket rule
(terraform.js lines 311-320). -/
def s3PlanText (bucketName : String) : String :=
  "Terraform will perform the following actions:\n\n  # aws_s3_bucket.main will be created\n  + resource \"aws_s3_bucket\" \"main\" \x7b\n      + bucket                      = \""
    ++ bucketName
    ++ "\"\n      + bucket_domain_name          = (known after apply)\n      + region                      = \"us-east-1\"\n    \x7d\n\nPlan: 3 to add, 0 to change, 0 to destroy."

/-- The rule table of `generateTerraformPlan` (terraform.js lines 252-348):
a single s3-bucket rule keyed on the substrings "s3" and "bucket", and a
default "unknown" result; the bucket name embeds `Date.now()`. -/
def generateTerraformPlan (now : Nat) (isoNow : String) (request : String) : PlanResult :=
  let lowerRequest := jsToLower request
  if jsIncludes lowerRequest "s3" && jsIncludes lowerRequest "bucket" then
    let bucketName := "terraform-ai-" ++ natToString now
    { resourceType := "s3-bucket"
      resourceConfig := some bucketName
      summary := "I'll create an S3 bucket in your AWS account with the following features:"
      terraformCode := s3TerraformCode bucketName isoNow
      plan := s3PlanText bucketName
      resources := ["S3 Bucket with versioning enabled",
                    "Server-side encryption (AES256)",
                    "Resource tags for management"]
      estimatedCost := "$0.023/month for 1GB storage. FREE for first 12 months (5GB free)"
      warnings := ["💰 You will be charged by AWS starting immediately",
                   "🌍 Bucket name must be globally unique",
                   "🗑️ Delete all objects before deleting bucket",
                   "💵 Data transfer costs $0.09/GB after 100GB/month",
                   "🔄 Run \"terraform destroy\" when done"] }
  else
    { resourceType := "unknown"
      resourceConfig := none
      summary := "Please specify what AWS resource you want to create."
      terraformCode := "# Specify resource type"
      plan := "No plan available"
      resources := []
      estimatedCost := "Unknown"
      warnings := ["Specify a valid resource type"] }

/-- The four S3 SDK calls of the storage-bucket driver `createS3Bucket`
(terraform.js lines 361-447), in source order. -/
inductive S3Step where
  | createBucket
  | putVersioning
  | putEncryption
  | putTagging
deriving DecidableEq, Repr

/-- Remote side effects of the storage-bucket driver: which of the four steps
has taken effect in the remote account. Nothing in the driver ever unsets a
component (there is no rollback code). -/
structure S3State where
  created : Bool
  versioned : Bool
  encrypted : Bool
  tagged : Bool
deriving DecidableEq, Repr

/-- The remote account before any driver call. -/
def S3State.untouched : S3State := ⟨false, false, false, false⟩

/-- Structured result of a successful resource creation
(terraform.js lines 422-432). -/
structure S3Outputs where
  resourceId : String
  message : String
  outputs : List (String × String)
deriving DecidableEq, Repr

/-- The console URL built for a created bucket (terraform.js line 420). -/
def bucketConsoleUrl (bucketName : String) : String :=
  "https://s3.console.aws.amazon.com/s3/buckets/" ++ bucketName

/-- The success payload returned by `createS3Bucket`
(terraform.js lines 422-432); `isoNow` models `new Date().toISOString()`. -/
def s3SuccessOutputs (isoNow bucketName : String) : S3Outputs :=
  { resourceId := bucketName
    message := "✅ Successfully created S3 bucket!\n\n📦 Bucket Name: " ++ bucketName
      ++ "\n🔗 View in Console: " ++ bucketConsoleUrl bucketName
      ++ "\n\n✨ Features enabled:\n• Versioning\n• Server-side encryption (AES256)\n• Management tags\n\n💡 Your bucket is ready to use!"
    outputs := [("bucket_name", bucketName),
                ("bucket_region", "us-east-1"),
                ("bucket_arn", "arn:aws:s3:::" ++ bucketName),
                ("console_url", bucketConsoleUrl bucketName),
                ("created_at", isoNow)] }

/-- The catch block of `createS3Bucket` (terraform.js lines 434-446): map the
provider error to the thrown message. -/
def mapS3Error (bucketName : String) (e : JsError) : String :=
  if e.code == "BucketAlreadyExists" then
    "Bucket name \"" ++ bucketName ++ "\" is already taken globally. S3 bucket names must be unique across all AWS accounts."
  else if e.code == "InvalidBucketName" then
    "Invalid bucket name \"" ++ bucketName ++ "\". Bucket names must be 3-63 characters, lowercase, and contain only letters, numbers, and hyphens."
  else
    "Failed to create S3 bucket: " ++ e.message

/-- The storage-bucket driver `createS3Bucket` (terraform.js lines 361-447).
`call` is the S3 client built from the supplied credentials; `call step = some e`
means that SDK call rejects with error `e`. The result carries the thrown or
returned value, the list of steps attempted (in order), and the remote side
effects that took hold. The sequencing is the literal `await` chain of the
source: each step runs only if every earlier one resolved, and a rejection
aborts the `try` body at that point. -/
def createS3Bucket (call : S3Step → Option JsError) (isoNow bucketName : String) :
    Except String S3Outputs × List S3Step × S3State :=
  match call S3Step.createBucket with
  | some e => (Except.error (mapS3Error bucketName e),
               [S3Step.createBucket], ⟨false, false, false, false⟩)
  | Option.none =>
    match call S3Step.putVersioning with
    | some e => (Except.error (mapS3Error bucketName e),
                 [S3Step.createBucket, S3Step.putVersioning], ⟨true, false, false, false⟩)
    | Option.none =>
      match call S3Step.putEncryption with
      | some e => (Except.error (mapS3Error bucketName e),
                   [S3Step.createBucket, S3Step.putVersioning, S3Step.putEncryption],
                   ⟨true, true, false, false⟩)
      | Option.none =>
        match call S3Step.putTagging with
        | some e => (Except.error (mapS3Error bucketName e),
                     [S3Step.createBucket, S3Step.putVersioning, S3Step.putEncryption,
                      S3Step.putTagging], ⟨true, true, true, false⟩)
        | Option.none => (Except.ok (s3SuccessOutputs isoNow bucketName),
                          [S3Step.createBucket, S3Step.putVersioning, S3Step.putEncryption,
                           S3Step.putTagging], ⟨true, true, true, true⟩)

/-- The driver dispatcher `createAWSResource` (terraform.js lines 351-359):
only `s3-bucket` has a driver; any other resource type throws before any
provider call. `s3call` models building an S3 client from the credentials
handed to the dispatcher. In the JavaScript, `config.bucketName` on the empty
config object is `undefined`, which string interpolation renders as
"undefined"; that branch is unreachable from staged plans. -/
def createAWSResource (s3call : Credentials → S3Step → Option JsError)
    (credentials : Credentials) (isoNow : String)
    (resourceType : String) (config : Option String) :
    Except String S3Outputs × List S3Step × S3State :=
  if resourceType == "s3-bucket" then
    createS3Bucket (s3call credentials) isoNow (config.getD "undefined")
  else
    (Except.error ("Unsupported resource type: " ++ resourceType), [], S3State.untouched)

/-- An outbound provider call, for tracking when external calls happen. -/
inductive ExternalCall where
  | assumeRoleCall (roleArn externalId : String) (durationSeconds : Nat)
  | getCallerIdentityCall
deriving DecidableEq, Repr

/-- Oracles and ambient state for the verify-role route. `stsAssumeRole` is the
provider's answer to the 900-second assume-role call; `identityAccount` is the
account id returned by `getCallerIdentity` on the assumed session. -/
structure VerifyEnv where
  stsAssumeRole : String → String → Except JsError Credentials
  identityAccount : Credentials → Except JsError String

/-- Response of the verify-role route (terraform.js lines 9-66). -/
inductive VerifyResponse where
  | missingFields
  | valid (accountId : String)
  | invalid (error : String)
deriving DecidableEq, Repr

/-- The remediation text for an `AccessDenied` provider error
(terraform.js line 58). -/
def accessDeniedGuidance : String :=
  "Access denied. Please check that:\n1. Role ARN is correct\n2. External ID matches\n3. Trust relationship is configured correctly"

/-- The error mapping of the verify-role catch block
(terraform.js lines 53-64). -/
def verifyErrorMessage (e : JsError) : String :=
  if e.code == "AccessDenied" then accessDeniedGuidance else "Failed to assume role"

/-- The `POST /auth/verify-role` handler (terraform.js lines 9-66), returning
the response together with the provider calls it issued, in order. -/
def verifyRoleHandler (env : VerifyEnv) (body : RequestBody) :
    VerifyResponse × List ExternalCall :=
  if !(truthy body.roleArn && truthy body.externalId) then
    (VerifyResponse.missingFields, [])
  else
    let roleArn := body.roleArn.getD ""
    let externalId := body.externalId.getD ""
    match env.stsAssumeRole roleArn externalId with
    | Except.error e =>
      (VerifyResponse.invalid (verifyErrorMessage e),
       [ExternalCall.assumeRoleCall roleArn externalId 900])
    | Except.ok creds =>
      match env.identityAccount creds with
      | Except.error e =>
        (VerifyResponse.invalid (verifyErrorMessage e),
         [ExternalCall.assumeRoleCall roleArn externalId 900,
          ExternalCall.getCallerIdentityCall])
      | Except.ok account =>
        (VerifyResponse.valid account,
         [ExternalCall.assumeRoleCall roleArn externalId 900,
          ExternalCall.getCallerIdentityCall])

/-- The `validateAwsCredentials` middleware (security.js lines 34-59):
`some (error, message)` is a 400 response, `none` means `next()` was called.
A field is format-checked only when it is present and truthy, matching the
JavaScript `if (roleArn)` / `if (externalId)` guards. -/
def validateAwsCredentials (body : RequestBody) : Option (String × String) :=
  if truthy body.roleArn && !(matchesRoleArn (body.roleArn.getD "")) then
    some ("Invalid Role ARN format",
          "Role ARN must match pattern: arn:aws:iam::123456789012:role/RoleName")
  else if truthy body.externalId && !(isHex64 (body.externalId.getD "")) then
    some ("Invalid External ID format",
          "External ID must be 64 hexadecimal characters")
  else none

/-- The server wiring for the verify-role route, from `backend/server.js`
(embedded in the frontend source file; both variants): the app mounts only
cors, the JSON body parser and the rate limiter before
`app.use('/api', terraformRouter)`. `validateAwsCredentials` from
`backend/middleware/security.js` is exported but never mounted, so a request
to `/api/auth/verify-role` reaches the route handler directly, with no format
validation in front of it. -/
def serverVerifyRole (env : VerifyEnv) (body : RequestBody) :
    VerifyResponse × List ExternalCall :=
  verifyRoleHandler env body

/-- Response of the chat route (terraform.js lines 69-146). `staged` carries
the 200 response with `requiresConfirmation: true`; `info` is the
informational answer with `requiresConfirmation: false`; `connectionRequired`
and `roleFailed` are the two 401 responses; `missingMessage` is the 400. -/
inductive ChatResponse where
  | missingMessage
  | info (message : String)
  | connectionRequired
  | roleFailed (message : String)
  | staged (actionId : String) (result : PlanResult)
deriving DecidableEq, Repr

/-- The HTTP status code of a chat response. -/
def ChatResponse.status : ChatResponse → Nat
  | ChatResponse.missingMessage => 400
  | ChatResponse.info _ => 200
  | ChatResponse.connectionRequired => 401
  | ChatResponse.roleFailed _ => 401
  | ChatResponse.staged _ _ => 200

/-- The `requiresConfirmation` flag of a chat response. -/
def ChatResponse.requiresConfirmation : ChatResponse → Bool
  | ChatResponse.staged _ _ => true
  | _ => false

/-- The `actionId` field of a chat response, when present. -/
def ChatResponse.actionIdField : ChatResponse → Option String
  | ChatResponse.staged a _ => some a
  | _ => none

/-- Oracles and ambient state for the chat route. `assumeRoleResult` is the
outcome of the `assumeRole` helper (terraform.js lines 204-230): `Except.error m`
models it throwing `Failed to assume role: ...`, with the provider message
already wrapped. `now` is `Date.now()` and `isoNow` is
`new Date().toISOString()` at handling time. -/
structure ChatEnv where
  assumeRoleResult : String → String → Except String Credentials
  now : Nat
  isoNow : String

/-- The `POST /chat` handler (terraform.js lines 69-146) as a function from
the shared `pendingActions` ledger to the updated ledger and the response:
require a message; classify; answer informational questions; demand a role
reference for change intents; verify the role can be assumed; stage the
generated plan under `action_${Date.now()}`; run the opportunistic sweep. -/
def chatHandler (env : ChatEnv) (body : RequestBody) (ledger : Ledger) :
    Ledger × ChatResponse :=
  if !(truthy body.message) then
    (ledger, ChatResponse.missingMessage)
  else
    let message := body.message.getD ""
    let lowerMessage := jsToLower message
    if !(isCreationRequest lowerMessage) then
      (ledger, ChatResponse.info (generateAnswer message))
    else if !(truthy body.roleArn && truthy body.externalId) then
      (ledger, ChatResponse.connectionRequired)
    else
      let roleArn := body.roleArn.getD ""
      let externalId := body.externalId.getD ""
      match env.assumeRoleResult roleArn externalId with
      | Except.error m => (ledger, ChatResponse.roleFailed m)
      | Except.ok _ =>
        let result := generateTerraformPlan env.now env.isoNow message
        let actionId := genActionId env.now
        let ledger1 := mapSet ledger actionId
          { message := message
            roleArn := roleArn
            externalId := externalId
            resourceType := result.resourceType
            resourceConfig := result.resourceConfig
            timestamp := env.now }
        let ledger2 := cleanupOldActions env.now ledger1
        (ledger2, ChatResponse.staged actionId result)

/-- Response of the apply route (terraform.js lines 149-198). `failed` is the
500 response with `success: false`; `ok` is the 200 response with
`success: true`. -/
inductive ApplyResponse where
  | missingParams
  | notFound
  | failed (message : String)
  | ok (message : String) (outputs : List (String × String))
deriving DecidableEq, Repr

/-- Whether an apply response is the 404 `Action not found or expired`. -/
def ApplyResponse.isNotFound : ApplyResponse → Bool
  | ApplyResponse.notFound => true
  | _ => false

/-- Whether an apply response reports `success: true`. -/
def ApplyResponse.isSuccess : ApplyResponse → Bool
  | ApplyResponse.ok _ _ => true
  | _ => false

/-- Oracles and ambient state for the apply route. `assumeRoleResult` is the
outcome of the `assumeRole` helper exactly as in `ChatEnv`; `s3call` models
building an S3 client from credentials; `isoNow` is
`new Date().toISOString()`. The handler takes no clock: nothing in
terraform.js lines 149-198 reads `Date.now()`. -/
structure ApplyEnv where
  assumeRoleResult : String → String → Except String Credentials
  s3call : Credentials → S3Step → Option JsError
  isoNow : String

/-- Everything observable about one run of the apply handler: the ledger it
leaves behind, its response, the credentials it handed to the resource
driver (if it got that far), the driver steps attempted, and the remote side
effects. -/
structure ApplyOutcome where
  ledger : Ledger
  response : ApplyResponse
  credsUsed : Option Credentials
  attempted : List S3Step
  remote : S3State
deriving DecidableEq, Repr

/-- The `POST /apply` handler (terraform.js lines 149-198): require the three
parameters; `pendingActions.get(actionId)`; 404 when absent; derive fresh
credentials from the request's `(roleArn, externalId)`; run the resource
driver; only after the driver resolves, `pendingActions.delete(actionId)`.
Any throw (role assumption or driver) lands in the catch block as a 500 with
the thrown message, leaving the ledger untouched. -/
def applyHandler (env : ApplyEnv) (body : RequestBody) (ledger : Ledger) :
    ApplyOutcome :=
  if !(truthy body.actionId && truthy body.roleArn && truthy body.externalId) then
    { ledger := ledger, response := ApplyResponse.missingParams,
      credsUsed := none, attempted := [], remote := S3State.untouched }
  else
    match mapGet ledger (body.actionId.getD "") with
    | none =>
      { ledger := ledger, response := ApplyResponse.notFound,
        credsUsed := none, attempted := [], remote := S3State.untouched }
    | some pendingAction =>
      match env.assumeRoleResult (body.roleArn.getD "") (body.externalId.getD "") with
      | Except.error m =>
        { ledger := ledger, response := ApplyResponse.failed m,
          credsUsed := none, attempted := [], remote := S3State.untouched }
      | Except.ok credentials =>
        match createAWSResource env.s3call credentials env.isoNow
            pendingAction.resourceType pendingAction.resourceConfig with
        | (Except.error m, attempted, remote) =>
          { ledger := ledger, response := ApplyResponse.failed m,
            credsUsed := some credentials, attempted := attempted, remote := remote }
        | (Except.ok result, attempted, remote) =>
          { ledger := mapDelete ledger (body.actionId.getD ""),
            response := ApplyResponse.ok result.message result.outputs,
            credsUsed := some credentials, attempted := attempted, remote := remote }

/-- Phase of one in-flight apply request for the same `actionId`, for the
interleaving analysis of the consume path. The handler body between
`pendingActions.get(actionId)` (terraform.js line 159) and
`pendingActions.delete(actionId)` (line 180) contains `await`ed network calls
(`assumeRole`, the resource driver), so the event loop can interleave another
apply request between the two map operations. Atomic ledger operations are:
the `get` (taking `start` to `executing` on a hit, `observedNotFound` on a
miss) and the `delete` (taking `executing` to `finished`). `executing e`
means this caller obtained the staged entry `e` and proceeds to execution. -/
inductive ApplyPhase where
  | start
  | executing (e : PendingAction)
  | observedNotFound
  | finished (e : PendingAction)
deriving DecidableEq, Repr

/-- One atomic ledger step of an apply request in phase `p`. -/
def applyStep (actionId : String) (ledger : Ledger) (p : ApplyPhase) :
    Ledger × ApplyPhase :=
  match p with
  | ApplyPhase.start =>
    match mapGet ledger actionId with
    | some e => (ledger, ApplyPhase.executing e)
    | none => (ledger, ApplyPhase.observedNotFound)
  | ApplyPhase.executing e => (mapDelete ledger actionId, ApplyPhase.finished e)
  | p => (ledger, p)

/-- Shared state of two concurrent apply requests for the same `actionId`. -/
structure TwoApplies where
  ledger : Ledger
  first : ApplyPhase
  second : ApplyPhase
deriving DecidableEq, Repr

/-- Run one atomic step of the chosen request (`true` = first request). -/
def stepChosen (actionId : String) (c : TwoApplies) (choice : Bool) : TwoApplies :=
  if choice then
    let r := applyStep actionId c.ledger c.first
    { ledger := r.1, first := r.2, second := c.second }
  else
    let r := applyStep actionId c.ledger c.second
    { ledger := r.1, first := c.first, second := r.2 }

/-- Run the two concurrent apply requests under an interleaving schedule. -/
def runSchedule (actionId : String) (schedule : List Bool) (c : TwoApplies) :
    TwoApplies :=
  schedule.foldl (stepChosen actionId) c

/-- Whether a phase means the caller obtained the staged entry and proceeded
to execution. -/
def ApplyPhase.obtainedEntry : ApplyPhase → Bool
  | ApplyPhase.executing _ => true
  | ApplyPhase.finished _ => true
  | _ => false

/-! Helper lemmas about the embedding. -/

theorem natToStringRev_eq_digits (fuel : Nat) :
    ∀ n : Nat, n ≤ fuel → natToStringRev fuel n = (Nat.digits 10 n).map Nat.digitChar := by
  induction fuel with
  | zero =>
    intro n h
    have hn : n = 0 := Nat.le_zero.mp h
    subst hn
    simp [natToStringRev]
  | succ f ih =>
    intro n h
    match n with
    | 0 => simp [natToStringRev]
    | m + 1 =>
      have hdiv : (m + 1) / 10 ≤ f := by
        have hlt : (m + 1) / 10 < m + 1 := Nat.div_lt_self (Nat.succ_pos m) (by norm_num)
        omega
      rw [Nat.digits_def' (by norm_num : 1 < 10) (Nat.succ_pos m)]
      simp only [natToStringRev, List.map]
      rw [ih _ hdiv]

theorem charToDigitVal_digitChar : ∀ d : Nat, d < 10 → charToDigitVal (Nat.digitChar d) = d := by
  decide

theorem map_charToDigitVal_digitChar (l : List Nat) (h : ∀ d ∈ l, d < 10) :
    (l.map Nat.digitChar).map charToDigitVal = l := by
  induction l with
  | nil => simp
  | cons d rest ih =>
    simp only [List.map, List.cons.injEq]
    constructor
    · exact charToDigitVal_digitChar d (h d (List.mem_cons_self d rest))
    · exact ih (fun x hx => h x (List.mem_cons_of_mem d hx))

theorem extractTime_genActionId (t : Nat) : extractTime (genActionId t) = some t := by
  have h0 : extractTime (genActionId t)
      = some (Nat.ofDigits 10 ((natToString t).data.reverse.map charToDigitVal)) := rfl
  rw [h0]
  congr 1
  by_cases ht : t = 0
  · subst ht
    show Nat.ofDigits 10 (("0").data.reverse.map charToDigitVal) = 0
    decide
  · have hdata : (natToString t).data = (natToStringRev t t).reverse := by
      simp [natToString, ht]
    rw [hdata, List.reverse_reverse, natToStringRev_eq_digits t t le_rfl,
        map_charToDigitVal_digitChar _ (fun d hd => Nat.digits_lt_base (by norm_num) hd),
        Nat.ofDigits_digits]

theorem mapGet_cons (a : String) (b : PendingAction) (rest : Ledger) (k : String) :
    mapGet ((a, b) :: rest) k = if a == k then some b else mapGet rest k := by
  by_cases h : a == k
  · simp [mapGet, List.find?, h]
  · simp only [mapGet, List.find?]
    simp [h]

theorem mapGet_mapSet_self (m : Ledger) (k : String) (v : PendingAction) :
    mapGet (mapSet m k v) k = some v := by
  induction m with
  | nil => simp [mapSet, mapGet, List.find?]
  | cons p rest ih =>
    obtain ⟨a, b⟩ := p
    by_cases h : a == k
    · have hk : (a : String) = k := by simpa using h
      subst hk
      simp [mapSet, mapGet, List.find?]
    · simp only [mapSet, if_neg h]
      rw [mapGet_cons, if_neg h, ih]

theorem mapGet_cleanupOldActions (now : Nat) (m : Ledger) (k : String) (v : PendingAction)
    (hget : mapGet m k = some v) (hkeep : ¬(v.timestamp < now - 600000)) :
    mapGet (cleanupOldActions now m) k = some v := by
  induction m with
  | nil => simp [mapGet] at hget
  | cons p rest ih =>
    obtain ⟨a, b⟩ := p
    rw [mapGet_cons] at hget
    rw [cleanupOldActions, List.filter_cons]
    by_cases h : a == k
    · rw [if_pos h] at hget
      obtain rfl : b = v := Option.some.inj hget
      have hkb : (!decide (b.timestamp < now - 600000)) = true := by
        simp [hkeep]
      rw [if_pos hkb, mapGet_cons, if_pos h]
    · rw [if_neg h] at hget
      by_cases hkb : (!decide (b.timestamp < now - 600000)) = true
      · rw [if_pos hkb, mapGet_cons, if_neg h]
        exact ih hget
      · rw [if_neg hkb]
        exact ih hget

/-! Concrete fixtures used by counterexamples and by witnesses. -/

/-- Sample temporary credentials returned by the assume-role oracles. -/
def sampleCreds : Credentials :=
  { accessKeyId := "ASIAEXAMPLE", secretAccessKey := "sampleSecretKey",
    sessionToken := "sampleSessionToken", expiration := 3600000 }

/-- A second, different set of temporary credentials. -/
def otherCreds : Credentials :=
  { accessKeyId := "ASIAOTHER", secretAccessKey := "otherSecretKey",
    sessionToken := "otherSessionToken", expiration := 7200000 }

/-- The pending action staged by the chat route at `Date.now() = 1000` for the
message "create an s3 bucket". -/
def sampleS3Action : PendingAction :=
  { message := "create an s3 bucket", roleArn := "arn:aws:iam::123456789012:role/Deploy",
    externalId := "secret-external-id", resourceType := "s3-bucket",
    resourceConfig := some "terraform-ai-1000", timestamp := 1000 }

/-- The same staged action with creation time 0 (used for expiry scenarios). -/
def staleAction : PendingAction :=
  { sampleS3Action with timestamp := 0, resourceConfig := some "terraform-ai-0" }

/-- A staged action whose message matched no resource rule. -/
def unknownAction : PendingAction :=
  { message := "create a cache", roleArn := "arn:aws:iam::123456789012:role/Deploy",
    externalId := "secret-external-id", resourceType := "unknown",
    resourceConfig := none, timestamp := 1000 }

/-- Chat environment whose role assumption always succeeds, at
`Date.now() = 1000`. -/
def chatEnvOk : ChatEnv :=
  { assumeRoleResult := fun _ _ => Except.ok sampleCreds, now := 1000,
    isoNow := "2026-02-01T00:00:00.000Z" }

/-- The same chat environment except that the assume-role call returns
different credential values. -/
def chatEnvOther : ChatEnv :=
  { assumeRoleResult := fun _ _ => Except.ok otherCreds, now := 1000,
    isoNow := "2026-02-01T00:00:00.000Z" }

/-- A chat request body carrying an s3-bucket creation message and a role
reference. -/
def chatBodyCreate : RequestBody :=
  { message := some "create an s3 bucket", actionId := none,
    roleArn := some "arn:aws:iam::123456789012:role/Deploy",
    externalId := some "secret-external-id" }

/-- A chat request body carrying a creation message that matches no resource
rule. -/
def chatBodyUnknown : RequestBody :=
  { message := some "create a cache", actionId := none,
    roleArn := some "arn:aws:iam::123456789012:role/Deploy",
    externalId := some "secret-external-id" }

/-- A chat request body carrying a creation message but no role reference. -/
def chatBodyNoAuth : RequestBody :=
  { message := some "create an s3 bucket", actionId := none,
    roleArn := none, externalId := none }

/-- Apply environment whose role assumption and S3 calls all succeed. -/
def applyEnvOk : ApplyEnv :=
  { assumeRoleResult := fun _ _ => Except.ok sampleCreds,
    s3call := fun _ _ => none, isoNow := "2026-02-01T00:10:00.001Z" }

/-- Apply environment whose role assumption throws. -/
def applyEnvFail : ApplyEnv :=
  { assumeRoleResult := fun _ _ => Except.error "Failed to assume role: boom",
    s3call := fun _ _ => none, isoNow := "2026-02-01T00:10:00.001Z" }

/-- An apply request body for action `action_0`. -/
def applyBodyStale : RequestBody :=
  { message := none, actionId := some "action_0",
    roleArn := some "arn:aws:iam::123456789012:role/Deploy",
    externalId := some "secret-external-id" }

/-- An apply request body for action `action_1000`. -/
def applyBody1000 : RequestBody :=
  { message := none, actionId := some "action_1000",
    roleArn := some "arn:aws:iam::123456789012:role/Deploy",
    externalId := some "secret-external-id" }

/-! Claims. -/

/-- Claim C1 (code_bug evidence). The spec's concurrency contract demands that
`consume` be a single atomic check-and-remove, so that of two concurrent apply
requests for the same staged actionId exactly one obtains the entry and the
other observes NotFound. The code instead performs `pendingActions.get`
(terraform.js line 159) and `pendingActions.delete` (line 180) as two separate
steps with awaited network calls between them. This theorem evaluates the
interleaving in which both requests run their `get` before either reaches its
`delete`: both callers obtain the staged entry and both proceed to execution,
which is precisely the double execution the spec rules out. -/
theorem c1_concurrent_applies_both_obtain_entry :
    (runSchedule "action_1000" [true, false, true, false]
      { ledger := [("action_1000", sampleS3Action)],
        first := ApplyPhase.start, second := ApplyPhase.start }).first
      = ApplyPhase.finished sampleS3Action ∧
    (runSchedule "action_1000" [true, false, true, false]
      { ledger := [("action_1000", sampleS3Action)],
        first := ApplyPhase.start, second := ApplyPhase.start }).second
      = ApplyPhase.finished sampleS3Action ∧
    (ApplyPhase.finished sampleS3Action).obtainedEntry = true := by
  refine ⟨by decide, by decide, rfl⟩

/-- Claim C2 (counterexample). An action staged at `T = 0` whose apply is first
attempted at `T + 10min + 1ms` (no sweep ran in between — the only sweep is the
one `POST /chat` triggers, and no chat request intervened): the apply does not
report NotFound; it finds the entry, executes, reports success and consumes the
entry. The handler (terraform.js lines 149-198) never reads a clock, so no TTL
can be enforced at consumption time. -/
theorem c2_counterexample_expired_apply_succeeds :
    (applyHandler applyEnvOk applyBodyStale [("action_0", staleAction)]).response.isNotFound
      = false ∧
    (applyHandler applyEnvOk applyBodyStale [("action_0", staleAction)]).response.isSuccess
      = true ∧
    (applyHandler applyEnvOk applyBodyStale [("action_0", staleAction)]).ledger = [] := by
  refine ⟨by decide, by decide, by decide⟩

/-- Claim C2 (amended). The 10-minute TTL is enforced only by the
`cleanupOldActions` sweep, which runs opportunistically when a later chat
request stages an action — not at consumption time. An expired but unswept
entry is still consumed successfully (first conjunct: the apply handler takes
no clock at all), while any sweep run later than `T + 10min` removes the entry
(second conjunct), after which the apply reports NotFound (third conjunct). -/
theorem c2_ttl_enforced_only_by_sweep
    (env : ApplyEnv) (body : RequestBody) (aid r x : String) (e : PendingAction)
    (now : Nat) (c : Credentials)
    (haid : body.actionId = some aid) (haid' : aid.isEmpty = false)
    (hr : body.roleArn = some r) (hr' : r.isEmpty = false)
    (hx : body.externalId = some x) (hx' : x.isEmpty = false)
    (hassume : env.assumeRoleResult r x = Except.ok c)
    (htype : e.resourceType = "s3-bucket")
    (hs3 : ∀ cr s, env.s3call cr s = none)
    (hexp : e.timestamp + 600000 < now) :
    (applyHandler env body [(aid, e)]).response.isSuccess = true ∧
    cleanupOldActions now [(aid, e)] = [] ∧
    (applyHandler env body (cleanupOldActions now [(aid, e)])).response
      = ApplyResponse.notFound := by
  have hclean : cleanupOldActions now [(aid, e)] = [] := by
    have hlt : e.timestamp < now - 600000 := by omega
    simp [cleanupOldActions, hlt]
  refine ⟨?_, hclean, ?_⟩
  · simp [applyHandler, haid, hr, hx, truthy, haid', hr', hx', mapGet_cons,
      hassume, createAWSResource, htype, createS3Bucket, hs3, ApplyResponse.isSuccess]
  · rw [hclean]
    simp [applyHandler, haid, hr, hx, truthy, haid', hr', hx', mapGet]

/-- Claim C2 (witness for the amended theorem): the amended theorem applied to
the concrete stale action staged at `T = 0`, with the sweep running at
`now = 600001`. -/
theorem c2_witness :
    (applyHandler applyEnvOk applyBodyStale [("action_0", staleAction)]).response.isSuccess
      = true ∧
    cleanupOldActions 600001 [("action_0", staleAction)] = [] ∧
    (applyHandler applyEnvOk applyBodyStale
        (cleanupOldActions 600001 [("action_0", staleAction)])).response
      = ApplyResponse.notFound :=
  c2_ttl_enforced_only_by_sweep applyEnvOk applyBodyStale "action_0"
    "arn:aws:iam::123456789012:role/Deploy" "secret-external-id" staleAction
    600001 sampleCreds rfl rfl rfl rfl rfl rfl rfl rfl (fun _ _ => rfl) (by decide)

/-- Claim C4 (counterexample). After the chat handler for a staging request has
returned, the server-side `pendingActions` store still holds the very
`externalId` value the request carried (terraform.js line 118 writes it into
the stored entry): the externalId is persisted server-side beyond the lifetime
of the request that carried it. -/
theorem c4_counterexample_externalId_retained :
    mapGet (chatHandler chatEnvOk chatBodyCreate []).1 "action_1000"
      = some sampleS3Action ∧
    sampleS3Action.externalId = "secret-external-id" := by
  refine ⟨by decide, rfl⟩

/-- Claim C4 (amended). When a chat request stages an action, the request's
`externalId` (and `roleArn`) are written into the stored `PendingAction` and
remain in the in-memory ledger after the handler returns — until the entry is
consumed by an apply or removed by a sweep (at most 10 minutes). The
externalId is therefore persisted server-side past the single request's
lifetime, though only in process memory and only up to the action TTL. -/
theorem c4_externalId_stored_in_ledger
    (env : ChatEnv) (body : RequestBody) (ledger : Ledger)
    (message r x : String) (c : Credentials)
    (hm : body.message = some message) (hm' : message.isEmpty = false)
    (hcr : isCreationRequest (jsToLower message) = true)
    (hr : body.roleArn = some r) (hr' : r.isEmpty = false)
    (hx : body.externalId = some x) (hx' : x.isEmpty = false)
    (hassume : env.assumeRoleResult r x = Except.ok c) :
    mapGet (chatHandler env body ledger).1 (genActionId env.now) = some
      { message := message, roleArn := r, externalId := x,
        resourceType := (generateTerraformPlan env.now env.isoNow message).resourceType,
        resourceConfig := (generateTerraformPlan env.now env.isoNow message).resourceConfig,
        timestamp := env.now } := by
  simp only [chatHandler, hm, hr, hx, truthy, hm', hr', hx', hcr, hassume,
    Option.getD_some, Bool.not_false, Bool.and_self, Bool.not_true,
    Bool.false_eq_true, if_false, ite_false]
  exact mapGet_cleanupOldActions env.now _ _ _
    (mapGet_mapSet_self ledger (genActionId env.now) _)
    (by show ¬(env.now < env.now - 600000); omega)

/-- Claim C4 (witness for the amended theorem): the amended theorem applied to
the concrete staging request; the stored entry holds the request's
externalId. -/
theorem c4_witness :
    mapGet (chatHandler chatEnvOk chatBodyCreate []).1 (genActionId chatEnvOk.now) = some
      { message := "create an s3 bucket", roleArn := "arn:aws:iam::123456789012:role/Deploy",
        externalId := "secret-external-id",
        resourceType := (generateTerraformPlan chatEnvOk.now chatEnvOk.isoNow
          "create an s3 bucket").resourceType,
        resourceConfig := (generateTerraformPlan chatEnvOk.now chatEnvOk.isoNow
          "create an s3 bucket").resourceConfig,
        timestamp := chatEnvOk.now } :=
  c4_externalId_stored_in_ledger chatEnvOk chatBodyCreate []
    "create an s3 bucket" "arn:aws:iam::123456789012:role/Deploy" "secret-external-id"
    sampleCreds rfl rfl (by decide) rfl rfl rfl rfl rfl

/-- Claim C6 (counterexample). Two stage operations in the same millisecond
(`Date.now() = 1000` for both chat requests) generate the identical actionId
`action_1000`; the second `pendingActions.set` overwrites the first entry, so
the final ledger holds a single entry. The generated actionIds are not
globally unique for stagings arbitrarily close in time. -/
theorem c6_counterexample_same_millisecond_collision :
    ((chatHandler chatEnvOk chatBodyCreate []).2).actionIdField = some "action_1000" ∧
    ((chatHandler chatEnvOk chatBodyCreate
        (chatHandler chatEnvOk chatBodyCreate []).1).2).actionIdField
      = some "action_1000" ∧
    (chatHandler chatEnvOk chatBodyCreate
        (chatHandler chatEnvOk chatBodyCreate []).1).1.length = 1 := by
  refine ⟨by decide, by decide, by decide⟩

/-- Claim C6 (amended). Every generated actionId embeds its creation time
recoverably (first conjunct), so actionIds generated at distinct milliseconds
are distinct (second conjunct) and comparing the embedded components recovers
creation order (third conjunct). Stagings within the same millisecond,
however, produce the identical id (see the counterexample). -/
theorem c6_actionId_embeds_creation_time :
    (∀ t : Nat, extractTime (genActionId t) = some t) ∧
    (∀ t1 t2 : Nat, t1 ≠ t2 → genActionId t1 ≠ genActionId t2) ∧
    (∀ t1 t2 : Nat, t1 < t2 →
      (extractTime (genActionId t1)).getD 0 < (extractTime (genActionId t2)).getD 0) := by
  refine ⟨extractTime_genActionId, ?_, ?_⟩
  · intro t1 t2 hne heq
    have h1 := extractTime_genActionId t1
    rw [heq, extractTime_genActionId t2] at h1
    exact hne (Option.some.inj h1).symm
  · intro t1 t2 hlt
    rw [extractTime_genActionId, extractTime_genActionId]
    simpa using hlt

/-- Claim C6 (witness): the amended theorem applied at the concrete times
1699999999999 and 1700000000000. -/
theorem c6_witness :
    extractTime (genActionId 1700000000000) = some 1700000000000 ∧
    genActionId 1699999999999 ≠ genActionId 1700000000000 :=
  ⟨c6_actionId_embeds_creation_time.1 1700000000000,
   c6_actionId_embeds_creation_time.2.1 1699999999999 1700000000000 (by omega)⟩

/-- Claim C3. First conjunct: whenever the apply handler hands credentials to
the resource driver, they are exactly the result of the assume-role call made
at apply time with the caller-supplied `(roleArn, externalId)` of this very
request — never a cached value (the handler has no other credential source:
neither the ledger entry nor any earlier verification appears in the
derivation). Second conjunct: the ledger left behind by the chat route does
not depend on the credential values its verification call returned (only on
whether the call succeeded), so TemporaryCredentials never flow into any
stored `PendingAction` — whose fields (terraform.js lines 115-122) are only
message, roleArn, externalId, resourceType, resourceConfig, timestamp. -/
theorem c3_fresh_credentials_per_apply :
    (∀ (env : ApplyEnv) (body : RequestBody) (ledger : Ledger) (c : Credentials),
      (applyHandler env body ledger).credsUsed = some c →
      env.assumeRoleResult (body.roleArn.getD "") (body.externalId.getD "")
        = Except.ok c) ∧
    (∀ (env1 env2 : ChatEnv) (body : RequestBody) (ledger : Ledger),
      env1.now = env2.now → env1.isoNow = env2.isoNow →
      (∀ r x, (env1.assumeRoleResult r x).isOk = (env2.assumeRoleResult r x).isOk) →
      (chatHandler env1 body ledger).1 = (chatHandler env2 body ledger).1) := by
  constructor
  · intro env body ledger c h
    unfold applyHandler at h
    by_cases hg : (!(truthy body.actionId && truthy body.roleArn && truthy body.externalId)) = true
    · rw [if_pos hg] at h; simp at h
    · rw [if_neg hg] at h
      cases hget : mapGet ledger (body.actionId.getD "") with
      | none => rw [hget] at h; simp at h
      | some pa =>
        rw [hget] at h
        dsimp only at h
        cases ha : env.assumeRoleResult (body.roleArn.getD "") (body.externalId.getD "") with
        | error m => rw [ha] at h; simp at h
        | ok creds =>
          rw [ha] at h
          dsimp only at h
          rcases hc : createAWSResource env.s3call creds env.isoNow
              pa.resourceType pa.resourceConfig with ⟨res, att, rem⟩
          rw [hc] at h
          cases res with
          | error m =>
            simp only [Option.some.injEq] at h
            rw [h]
          | ok out =>
            simp only [Option.some.injEq] at h
            rw [h]
  · intro env1 env2 body ledger hnow hiso hok
    unfold chatHandler
    by_cases hm : truthy body.message
    · simp only [hm, Bool.not_true, Bool.false_eq_true, if_false, ite_false]
      by_cases hcr : isCreationRequest (jsToLower (body.message.getD ""))
      · simp only [hcr, Bool.not_true, Bool.false_eq_true, if_false, ite_false]
        by_cases hauth : truthy body.roleArn && truthy body.externalId
        · simp only [hauth, Bool.not_true, Bool.false_eq_true, if_false, ite_false]
          have hspec := hok (body.roleArn.getD "") (body.externalId.getD "")
          cases h1 : env1.assumeRoleResult (body.roleArn.getD "") (body.externalId.getD "") with
          | error m1 =>
            cases h2 : env2.assumeRoleResult (body.roleArn.getD "") (body.externalId.getD "") with
            | error m2 => rfl
            | ok c2 => rw [h1, h2] at hspec; simp [Except.isOk, Except.toBool] at hspec
          | ok c1 =>
            cases h2 : env2.assumeRoleResult (body.roleArn.getD "") (body.externalId.getD "") with
            | error m2 => rw [h1, h2] at hspec; simp [Except.isOk, Except.toBool] at hspec
            | ok c2 => rw [hnow, hiso]
        · simp only [hauth, Bool.not_false, if_true, ite_true]
      · simp only [hcr, Bool.not_false, if_true, ite_true]
    · simp only [hm, Bool.not_false, if_true, ite_true]

/-- Claim C3 (witness): the first conjunct applied to the concrete successful
apply (whose `credsUsed` evaluates to `some sampleCreds`), and the second
conjunct applied to two environments returning different credential values. -/
theorem c3_witness :
    applyEnvOk.assumeRoleResult "arn:aws:iam::123456789012:role/Deploy"
        "secret-external-id" = Except.ok sampleCreds ∧
    (chatHandler chatEnvOk chatBodyCreate []).1
      = (chatHandler chatEnvOther chatBodyCreate []).1 :=
  ⟨c3_fresh_credentials_per_apply.1 applyEnvOk applyBodyStale
      [("action_0", staleAction)] sampleCreds (by decide),
   c3_fresh_credentials_per_apply.2 chatEnvOk chatEnvOther chatBodyCreate []
      rfl rfl (fun _ _ => rfl)⟩

/-- Claim C9. A failed apply does not consume the staged action: whenever the
apply response is not a success — in particular the 500 produced when role
assumption throws or any resource-driver step throws after the entry was
retrieved — the handler leaves the ledger exactly as it found it (the
`pendingActions.delete` on terraform.js line 180 runs only after the driver
resolves), so the same actionId remains consumable by a subsequent apply until
a sweep removes it. -/
theorem c9_failed_apply_not_consumed (env : ApplyEnv) (body : RequestBody)
    (ledger : Ledger) :
    ((applyHandler env body ledger).response.isSuccess = false →
      (applyHandler env body ledger).ledger = ledger) ∧
    (∀ (aid : String) (e : PendingAction),
      (applyHandler env body ledger).response.isSuccess = false →
      mapGet ledger aid = some e →
      mapGet (applyHandler env body ledger).ledger aid = some e) := by
  have key : (applyHandler env body ledger).response.isSuccess = false →
      (applyHandler env body ledger).ledger = ledger := by
    unfold applyHandler
    by_cases hg : (!(truthy body.actionId && truthy body.roleArn && truthy body.externalId)) = true
    · rw [if_pos hg]; intro _; rfl
    · rw [if_neg hg]
      cases hget : mapGet ledger (body.actionId.getD "") with
      | none => intro _; rfl
      | some pa =>
        dsimp only
        cases ha : env.assumeRoleResult (body.roleArn.getD "") (body.externalId.getD "") with
        | error m => intro _; rfl
        | ok creds =>
          dsimp only
          rcases hc : createAWSResource env.s3call creds env.isoNow
              pa.resourceType pa.resourceConfig with ⟨res, att, rem⟩
          cases res with
          | error m => intro _; rfl
          | ok out => intro h; simp [ApplyResponse.isSuccess] at h
  refine ⟨key, ?_⟩
  intro aid e h hget
  rw [key h, hget]

/-- Claim C9 (witness): a concrete apply whose role assumption throws leaves
the staged entry in place and consumable. -/
theorem c9_witness :
    (applyHandler applyEnvFail applyBodyStale [("action_0", staleAction)]).ledger
      = [("action_0", staleAction)] ∧
    mapGet (applyHandler applyEnvFail applyBodyStale
        [("action_0", staleAction)]).ledger "action_0" = some staleAction :=
  ⟨(c9_failed_apply_not_consumed applyEnvFail applyBodyStale
      [("action_0", staleAction)]).1 (by decide),
   (c9_failed_apply_not_consumed applyEnvFail applyBodyStale
      [("action_0", staleAction)]).2 "action_0" staleAction (by decide) (by decide)⟩

/-- Environment for the verify-role route used by counterexamples and
witnesses. -/
def verifyEnvOk : VerifyEnv :=
  { stsAssumeRole := fun _ _ => Except.ok sampleCreds,
    identityAccount := fun _ => Except.ok "123456789012" }

/-- A request whose roleArn has a 3-digit account id (malformed) and a
well-formed 64-lowercase-hex externalId. -/
def badArnBody : RequestBody :=
  { message := none, actionId := none,
    roleArn := some "arn:aws:iam::123:role/Deploy",
    externalId := some "aaaaaaaaaaaaaaaaaaaaaaaaaaaaaaaaaaaaaaaaaaaaaaaaaaaaaaaaaaaaaaaa" }

/-- Claim C5 (counterexample). A request whose present roleArn fails the
role-ARN shape is not rejected before an external call: `backend/server.js`
never mounts `validateAwsCredentials`, so the request reaches the verify-role
handler, which issues the STS assume-role call carrying the malformed value
(terraform.js line 35). The conjuncts pin down that the roleArn is present and
truthy, that it fails the middleware's own ARN shape, and that the external
role-assumption call is nevertheless issued. -/
theorem c5_counterexample_malformed_reaches_provider :
    truthy badArnBody.roleArn = true ∧
    matchesRoleArn "arn:aws:iam::123:role/Deploy" = false ∧
    (serverVerifyRole verifyEnvOk badArnBody).2
      = [ExternalCall.assumeRoleCall "arn:aws:iam::123:role/Deploy"
          "aaaaaaaaaaaaaaaaaaaaaaaaaaaaaaaaaaaaaaaaaaaaaaaaaaaaaaaaaaaaaaaa" 900,
         ExternalCall.getCallerIdentityCall] := by
  refine ⟨rfl, by decide, by decide⟩

/-- Claim C5 (amended). The format checks exist only as unmounted middleware:
`validateAwsCredentials` (security.js lines 34-59) would answer a present
malformed roleArn or externalId with the 400 client error before calling
`next()` (first two conjuncts), but neither `backend/server.js` variant mounts
it, so in the running server a request with both fields present and truthy —
well-formed or not — reaches the verify-role handler and an external
assume-role call carrying the caller's values is issued (third conjunct).
Only a missing or empty roleArn/externalId is rejected (400) before any
external call (fourth conjunct). -/
theorem c5_format_checks_exist_but_are_never_mounted :
    (∀ body : RequestBody,
      truthy body.roleArn = true → matchesRoleArn (body.roleArn.getD "") = false →
      validateAwsCredentials body = some ("Invalid Role ARN format",
        "Role ARN must match pattern: arn:aws:iam::123456789012:role/RoleName")) ∧
    (∀ body : RequestBody,
      (truthy body.roleArn && !matchesRoleArn (body.roleArn.getD "")) = false →
      truthy body.externalId = true → isHex64 (body.externalId.getD "") = false →
      validateAwsCredentials body = some ("Invalid External ID format",
        "External ID must be 64 hexadecimal characters")) ∧
    (∀ (env : VerifyEnv) (body : RequestBody) (r x : String),
      body.roleArn = some r → r.isEmpty = false →
      body.externalId = some x → x.isEmpty = false →
      (serverVerifyRole env body).2.head?
        = some (ExternalCall.assumeRoleCall r x 900)) ∧
    (∀ (env : VerifyEnv) (body : RequestBody),
      (truthy body.roleArn && truthy body.externalId) = false →
      serverVerifyRole env body = (VerifyResponse.missingFields, [])) := by
  refine ⟨?_, ?_, ?_, ?_⟩
  · intro body h1 h2
    simp [validateAwsCredentials, h1, h2]
  · intro body hra h1 h2
    simp [validateAwsCredentials, hra, h1, h2]
  · intro env body r x hr hr' hx hx'
    simp only [serverVerifyRole, verifyRoleHandler, hr, hx, truthy, hr', hx',
      Option.getD_some, Bool.not_false, Bool.and_self, Bool.not_true,
      Bool.false_eq_true, if_false, ite_false]
    cases env.stsAssumeRole r x with
    | error e => simp
    | ok creds =>
      rcases h2 : env.identityAccount creds with e | a <;> simp [h2]
  · intro env body h
    simp [serverVerifyRole, verifyRoleHandler, h]

/-- Claim C5 (witness for the amended theorem): the middleware, run in
isolation on the malformed request, would produce the 400; the real pipeline
issues the assume-role call for that same request; and a request with no role
reference at all is rejected with no external call. -/
theorem c5_witness :
    validateAwsCredentials badArnBody = some ("Invalid Role ARN format",
      "Role ARN must match pattern: arn:aws:iam::123456789012:role/RoleName") ∧
    (serverVerifyRole verifyEnvOk badArnBody).2.head?
      = some (ExternalCall.assumeRoleCall "arn:aws:iam::123:role/Deploy"
          "aaaaaaaaaaaaaaaaaaaaaaaaaaaaaaaaaaaaaaaaaaaaaaaaaaaaaaaaaaaaaaaa" 900) ∧
    serverVerifyRole verifyEnvOk chatBodyNoAuth = (VerifyResponse.missingFields, []) :=
  ⟨c5_format_checks_exist_but_are_never_mounted.1 badArnBody rfl (by decide),
   c5_format_checks_exist_but_are_never_mounted.2.2.1 verifyEnvOk badArnBody
     "arn:aws:iam::123:role/Deploy"
     "aaaaaaaaaaaaaaaaaaaaaaaaaaaaaaaaaaaaaaaaaaaaaaaaaaaaaaaaaaaaaaaa"
     rfl rfl rfl rfl,
   c5_format_checks_exist_but_are_never_mounted.2.2.2 verifyEnvOk chatBodyNoAuth rfl⟩

/-- Claim C7. The storage-bucket driver attempts its steps in the fixed order
create bucket, enable versioning, enable encryption, apply tags. Each conjunct
fixes a failure point: the attempted-step list is exactly the prefix of that
order up to and including the failing call, no later step is ever attempted,
the run aborts with the mapped error, and the remote effects of the already
completed steps remain in place (no component is ever rolled back to
`false`). The final conjunct is the all-success run. -/
theorem c7_s3_driver_ordered_abort_no_rollback
    (call : S3Step → Option JsError) (isoNow b : String) :
    (∀ e, call S3Step.createBucket = some e →
      createS3Bucket call isoNow b =
        (Except.error (mapS3Error b e), [S3Step.createBucket],
         { created := false, versioned := false, encrypted := false, tagged := false })) ∧
    (∀ e, call S3Step.createBucket = none → call S3Step.putVersioning = some e →
      createS3Bucket call isoNow b =
        (Except.error (mapS3Error b e), [S3Step.createBucket, S3Step.putVersioning],
         { created := true, versioned := false, encrypted := false, tagged := false })) ∧
    (∀ e, call S3Step.createBucket = none → call S3Step.putVersioning = none →
      call S3Step.putEncryption = some e →
      createS3Bucket call isoNow b =
        (Except.error (mapS3Error b e),
         [S3Step.createBucket, S3Step.putVersioning, S3Step.putEncryption],
         { created := true, versioned := true, encrypted := false, tagged := false })) ∧
    (∀ e, call S3Step.createBucket = none → call S3Step.putVersioning = none →
      call S3Step.putEncryption = none → call S3Step.putTagging = some e →
      createS3Bucket call isoNow b =
        (Except.error (mapS3Error b e),
         [S3Step.createBucket, S3Step.putVersioning, S3Step.putEncryption,
          S3Step.putTagging],
         { created := true, versioned := true, encrypted := true, tagged := false })) ∧
    (call S3Step.createBucket = none → call S3Step.putVersioning = none →
      call S3Step.putEncryption = none → call S3Step.putTagging = none →
      createS3Bucket call isoNow b =
        (Except.ok (s3SuccessOutputs isoNow b),
         [S3Step.createBucket, S3Step.putVersioning, S3Step.putEncryption,
          S3Step.putTagging],
         { created := true, versioned := true, encrypted := true, tagged := true })) := by
  refine ⟨?_, ?_, ?_, ?_, ?_⟩ <;> intros <;> simp [createS3Bucket, *]

/-- The S3 client oracle that fails at the encryption step. -/
def callFailEncryption : S3Step → Option JsError := fun s =>
  if s == S3Step.putEncryption then some { code := "InternalError", message := "boom" }
  else none

/-- Claim C7 (witness): the theorem's encryption-failure conjunct applied to a
concrete oracle — create and versioning completed and kept, encryption failed,
tagging never attempted. -/
theorem c7_witness :
    createS3Bucket callFailEncryption "2026-02-01T00:00:00.000Z" "terraform-ai-1000" =
      (Except.error (mapS3Error "terraform-ai-1000"
        { code := "InternalError", message := "boom" }),
       [S3Step.createBucket, S3Step.putVersioning, S3Step.putEncryption],
       { created := true, versioned := true, encrypted := false, tagged := false }) :=
  (c7_s3_driver_ordered_abort_no_rollback callFailEncryption
      "2026-02-01T00:00:00.000Z" "terraform-ai-1000").2.2.1
    { code := "InternalError", message := "boom" } rfl rfl rfl

/-- Claim C8. A chat message classified as a change intent that arrives without
a truthy role reference (roleArn or externalId missing or empty) receives the
401 authorization-required response and the ledger is left exactly as it was:
no pending action is staged. -/
theorem c8_change_intent_without_role
    (env : ChatEnv) (body : RequestBody) (ledger : Ledger)
    (hmsg : truthy body.message = true)
    (hcr : isCreationRequest (jsToLower (body.message.getD "")) = true)
    (hnoauth : (truthy body.roleArn && truthy body.externalId) = false) :
    chatHandler env body ledger = (ledger, ChatResponse.connectionRequired) ∧
    ChatResponse.connectionRequired.status = 401 := by
  constructor
  · simp [chatHandler, hmsg, hcr, hnoauth]
  · rfl

/-- Claim C8 (witness): the theorem applied to a concrete creation message with
no role reference, on a nonempty ledger. -/
theorem c8_witness :
    chatHandler chatEnvOk chatBodyNoAuth [("action_0", staleAction)]
      = ([("action_0", staleAction)], ChatResponse.connectionRequired) ∧
    ChatResponse.connectionRequired.status = 401 :=
  c8_change_intent_without_role chatEnvOk chatBodyNoAuth [("action_0", staleAction)]
    rfl (by decide) rfl

/-- Claim C10. First conjunct: a request matching no resource rule gets the
default plan — resourceType "unknown", empty resource list, empty config.
Second conjunct: a creation message with a role reference that matches no rule
is nevertheless staged: the response is `requiresConfirmation: true` with the
default plan, and the ledger holds a `PendingAction` with resourceType
"unknown". Third conjunct: applying any staged entry whose resourceType is
"unknown" never succeeds and performs no remote driver call; when role
assumption succeeds, the failure message is exactly
`Unsupported resource type: unknown` (terraform.js line 358). -/
theorem c10_unknown_resource_staged_but_unappliable :
    (∀ (now : Nat) (isoNow message : String),
      (jsIncludes (jsToLower message) "s3" && jsIncludes (jsToLower message) "bucket")
        = false →
      (generateTerraformPlan now isoNow message).resourceType = "unknown" ∧
      (generateTerraformPlan now isoNow message).resources = [] ∧
      (generateTerraformPlan now isoNow message).resourceConfig = none) ∧
    (∀ (env : ChatEnv) (body : RequestBody) (ledger : Ledger)
       (message r x : String) (c : Credentials),
      body.message = some message → message.isEmpty = false →
      isCreationRequest (jsToLower message) = true →
      (jsIncludes (jsToLower message) "s3" && jsIncludes (jsToLower message) "bucket")
        = false →
      body.roleArn = some r → r.isEmpty = false →
      body.externalId = some x → x.isEmpty = false →
      env.assumeRoleResult r x = Except.ok c →
      (chatHandler env body ledger).2
        = ChatResponse.staged (genActionId env.now)
            (generateTerraformPlan env.now env.isoNow message) ∧
      (chatHandler env body ledger).2.requiresConfirmation = true ∧
      mapGet (chatHandler env body ledger).1 (genActionId env.now) = some
        { message := message, roleArn := r, externalId := x,
          resourceType := "unknown", resourceConfig := none, timestamp := env.now }) ∧
    (∀ (env : ApplyEnv) (body : RequestBody) (ledger : Ledger)
       (aid : String) (e : PendingAction),
      body.actionId = some aid → truthy body.actionId = true →
      truthy body.roleArn = true → truthy body.externalId = true →
      mapGet ledger aid = some e → e.resourceType = "unknown" →
      (applyHandler env body ledger).response.isSuccess = false ∧
      (applyHandler env body ledger).attempted = [] ∧
      (applyHandler env body ledger).remote = S3State.untouched ∧
      (∀ c, env.assumeRoleResult (body.roleArn.getD "") (body.externalId.getD "")
          = Except.ok c →
        (applyHandler env body ledger).response
          = ApplyResponse.failed "Unsupported resource type: unknown")) := by
  refine ⟨?_, ?_, ?_⟩
  · intro now isoNow message hnos3
    refine ⟨?_, ?_, ?_⟩ <;> simp [generateTerraformPlan, hnos3]
  · intro env body ledger message r x c hm hm' hcr hnos3 hr hr' hx hx' hassume
    have hrt : (generateTerraformPlan env.now env.isoNow message).resourceType
        = "unknown" := by
      simp [generateTerraformPlan, hnos3]
    have hrc : (generateTerraformPlan env.now env.isoNow message).resourceConfig
        = none := by
      simp [generateTerraformPlan, hnos3]
    refine ⟨?_, ?_, ?_⟩
    · simp [chatHandler, hm, hr, hx, truthy, hm', hr', hx', hcr, hassume]
    · simp [chatHandler, hm, hr, hx, truthy, hm', hr', hx', hcr, hassume,
        ChatResponse.requiresConfirmation]
    · simp only [chatHandler, hm, hr, hx, truthy, hm', hr', hx', hcr, hassume,
        Option.getD_some, Bool.not_false, Bool.and_self, Bool.not_true,
        Bool.false_eq_true, if_false, ite_false]
      rw [hrt, hrc]
      exact mapGet_cleanupOldActions env.now _ _ _
        (mapGet_mapSet_self ledger (genActionId env.now) _)
        (by show ¬(env.now < env.now - 600000); omega)
  · intro env body ledger aid e haid ht hr hx hget htype
    unfold applyHandler
    rw [ht, hr, hx, haid]
    simp only [Option.getD_some, Bool.and_self, Bool.not_true, Bool.false_eq_true,
      if_false, ite_false]
    rw [hget]
    dsimp only
    cases ha : env.assumeRoleResult (body.roleArn.getD "") (body.externalId.getD "") with
    | error m =>
      refine ⟨rfl, rfl, rfl, ?_⟩
      intro c hc
      exact absurd hc (by simp)
    | ok creds =>
      dsimp only
      rw [htype]
      simp only [createAWSResource]
      refine ⟨rfl, rfl, rfl, ?_⟩
      intro c hc
      rfl

/-- Claim C10 (witness): the theorem applied to the concrete message
"create a cache", its staged unknown action, and a concrete apply of it. -/
theorem c10_witness :
    (generateTerraformPlan 1000 "2026-02-01T00:00:00.000Z" "create a cache").resources
      = [] ∧
    (chatHandler chatEnvOk chatBodyUnknown []).2.requiresConfirmation = true ∧
    mapGet (chatHandler chatEnvOk chatBodyUnknown []).1 (genActionId chatEnvOk.now)
      = some unknownAction ∧
    (applyHandler applyEnvOk applyBody1000 [("action_1000", unknownAction)]).response
      = ApplyResponse.failed "Unsupported resource type: unknown" ∧
    (applyHandler applyEnvOk applyBody1000 [("action_1000", unknownAction)]).remote
      = S3State.untouched :=
  ⟨(c10_unknown_resource_staged_but_unappliable.1 1000 "2026-02-01T00:00:00.000Z"
      "create a cache" (by decide)).2.1,
   (c10_unknown_resource_staged_but_unappliable.2.1 chatEnvOk chatBodyUnknown []
      "create a cache" "arn:aws:iam::123456789012:role/Deploy" "secret-external-id"
      sampleCreds rfl rfl (by decide) (by decide) rfl rfl rfl rfl rfl).2.1,
   (c10_unknown_resource_staged_but_unappliable.2.1 chatEnvOk chatBodyUnknown []
      "create a cache" "arn:aws:iam::123456789012:role/Deploy" "secret-external-id"
      sampleCreds rfl rfl (by decide) (by decide) rfl rfl rfl rfl rfl).2.2,
   (c10_unknown_resource_staged_but_unappliable.2.2 applyEnvOk applyBody1000
      [("action_1000", unknownAction)] "action_1000" unknownAction
      rfl rfl rfl rfl (by decide) rfl).2.2.2 sampleCreds rfl,
   (c10_unknown_resource_staged_but_unappliable.2.2 applyEnvOk applyBody1000
      [("action_1000", unknownAction)] "action_1000" unknownAction
      rfl rfl rfl rfl (by decide) rfl).2.2.1⟩

end TfAgent
